import Mathlib

/-!
Verification development for the deployment-sftp extension.

The definitions below are a shallow embedding of the profile repository,
credential resolver and recursive directory upload found in
`src/extension.ts` (current revision) and the earlier revision of the same
module shipped in the repository (the unnamed source file that contains
`uploadDirectory` and the password-only profile handlers).

Modelling conventions:
- The VS Code `SecretStorage` collaborator is an association list from
  string keys to string secrets (`storeGet`, `storeSet`, `storeDelete`
  mirror `get`, `store`, `delete`).
- The local file system, as used by `fs.readFileSync` for private keys,
  is a function `String → Option String` (`none` models any read failure:
  missing file, permission denied, ...).
- JavaScript truthiness on optional strings (`if (profile.passphrase)`,
  `if (password)`, `if (profile.privateKeyPath)`) is modelled explicitly:
  `none` and `some ""` are falsy.
- The persisted profile file is modelled at the JSON-value level: a
  `FileState` is either absent, present-but-unparseable, or a parsed JSON
  value.  `JSON.stringify`/`JSON.parse` round-tripping of a well-formed
  value is absorbed into this representation.
-/

/-! ## Secret store (VS Code SecretStorage collaborator) -/

def SecretStore : Type := List (String × String)

def storeGet : SecretStore → String → Option String
  | [], _ => none
  | (k2, v) :: t, k => if k2 = k then some v else storeGet t k

def storeDelete : SecretStore → String → SecretStore
  | [], _ => []
  | (k2, v) :: t, k => if k2 = k then storeDelete t k else (k2, v) :: storeDelete t k

def storeSet (s : SecretStore) (k v : String) : SecretStore :=
  (k, v) :: storeDelete s k

theorem storeGet_storeDelete_self (s : SecretStore) (k : String) :
    storeGet (storeDelete s k) k = none := by
  induction s with
  | nil => rfl
  | cons e t ih =>
      obtain ⟨k2, v⟩ := e
      by_cases h : k2 = k
      · simp [storeDelete, h, ih]
      · simp [storeDelete, storeGet, h, ih]

theorem storeGet_storeDelete_none (s : SecretStore) (k k2 : String)
    (h : storeGet s k = none) : storeGet (storeDelete s k2) k = none := by
  induction s with
  | nil => rfl
  | cons e t ih =>
      obtain ⟨k3, v⟩ := e
      by_cases h3 : k3 = k
      · simp [storeGet, h3] at h
      · simp only [storeGet, if_neg h3] at h
        by_cases h2 : k3 = k2
        · simp [storeDelete, h2, ih h]
        · simp [storeDelete, storeGet, h2, h3, ih h]

/-! ## Data model: profiles and resolved connection configurations

`DeploymentProfile` mirrors the TypeScript interface of the same name.
`authMethod` is kept as a raw string because the source compares it with
`=== 'ssh-key'` and treats every other value as the password branch. -/

structure DeploymentProfile where
  name : String
  host : String
  port : Int
  username : String
  remotePath : String
  deployOnSave : Option Bool
  authMethod : String
  privateKeyPath : Option String
  passphrase : Option String
  deriving Repr, DecidableEq

structure SSHConfig where
  host : String
  port : Int
  username : String
  privateKey : Option String
  passphrase : Option String
  password : Option String
  agent : Option String
  deriving Repr, DecidableEq

/-- JavaScript truthiness of an optional string: `undefined` and `""` are
falsy, every other string is truthy. -/
def truthyOpt : Option String → Bool
  | some s => decide (s ≠ "")
  | none => false

/-- Claim-side shallow embedding of `getSSHConfig` (extension.ts lines
76–106).  `env` is `process.env.SSH_AUTH_SOCK`, `fs` models
`fs.readFileSync` on the private-key path, `store` is the secret store.
A thrown `Failed to read private key` error is an `Except.error`. -/
def getSSHConfig (env : Option String) (store : SecretStore)
    (fs : String → Option String) (p : DeploymentProfile) :
    Except String SSHConfig :=
  let base : SSHConfig :=
    { host := p.host, port := p.port, username := p.username,
      privateKey := none, passphrase := none, password := none, agent := none }
  if p.authMethod = "ssh-key" then
    if truthyOpt p.privateKeyPath then
      match fs (p.privateKeyPath.getD "") with
      | none => Except.error "Failed to read private key"
      | some key =>
          if truthyOpt p.passphrase then
            let pp := storeGet store ("sftp-passphrase-" ++ p.name)
            Except.ok { base with privateKey := some key, passphrase := pp }
          else
            Except.ok { base with privateKey := some key }
    else
      Except.ok { base with agent := env }
  else
    match storeGet store ("sftp-password-" ++ p.name) with
    | some pw =>
        if pw = "" then Except.ok base
        else Except.ok { base with password := some pw }
    | none => Except.ok base

/-! ## Persisted profile file (`.vscode/deployments.sftp.json`)

The file is modelled at the JSON-value level.  `FileState.absent` is a
missing file, `FileState.malformed` is a present file whose content makes
`JSON.parse` throw, and `FileState.wellFormed j` is a present file that
parses to the JSON value `j`. -/

inductive Json where
  | null
  | bool (b : Bool)
  | num (n : Int)
  | str (s : String)
  | arr (xs : List Json)
  | obj (fields : List (String × Json))

inductive FileState where
  | absent
  | malformed
  | wellFormed (j : Json)

def lookupField : List (String × Json) → String → Option Json
  | [], _ => none
  | (k2, v) :: t, k => if k2 = k then some v else lookupField t k

/-- JavaScript property access `j.k`: defined on objects, `undefined`
(here `none`) on arrays, strings, numbers and booleans.  Access on `null`
throws in JavaScript; `readProfiles` handles that case separately. -/
def Json.getField : Json → String → Option Json
  | .obj fs, k => lookupField fs k
  | _, _ => none

def asStr : Option Json → Option String
  | some (.str s) => some s
  | _ => none

def asInt : Option Json → Option Int
  | some (.num n) => some n
  | _ => none

def asBool : Option Json → Option Bool
  | some (.bool b) => some b
  | _ => none

/-- The source performs no validation: `data.deployments` is cast to
`DeploymentProfile[]` as-is.  In the typed embedding each field is read
off the raw JSON object the way later JavaScript field accesses would see
it, with `undefined` mapped to `none` for the optional fields and to the
neutral defaults for the required ones. -/
def decodeProfileJs (j : Json) : DeploymentProfile :=
  { name := (asStr (j.getField "name")).getD ""
  , host := (asStr (j.getField "host")).getD ""
  , port := (asInt (j.getField "port")).getD 0
  , username := (asStr (j.getField "username")).getD ""
  , remotePath := (asStr (j.getField "remotePath")).getD ""
  , deployOnSave := asBool (j.getField "deployOnSave")
  , authMethod := (asStr (j.getField "authMethod")).getD ""
  , privateKeyPath := asStr (j.getField "privateKeyPath")
  , passphrase := asStr (j.getField "passphrase") }

def optField (k : String) : Option Json → List (String × Json)
  | some j => [(k, j)]
  | none => []

/-- `JSON.stringify` of one profile record: fields holding `undefined`
are omitted from the output, everything else is serialized verbatim —
including `passphrase` when the record carries one. -/
def encodeProfile (p : DeploymentProfile) : Json :=
  Json.obj ([("name", Json.str p.name), ("host", Json.str p.host),
    ("port", Json.num p.port), ("username", Json.str p.username),
    ("remotePath", Json.str p.remotePath), ("authMethod", Json.str p.authMethod)]
    ++ optField "deployOnSave" (p.deployOnSave.map Json.bool)
    ++ optField "privateKeyPath" (p.privateKeyPath.map Json.str)
    ++ optField "passphrase" (p.passphrase.map Json.str))

/-- `readProfiles` (extension.ts lines 34–45).  Returns the profile list
together with the warning flag (`true` iff `showErrorMessage` fired from
the catch block).  A parsed `null` top-level value reaches
`data.deployments`, which throws on `null` in JavaScript and lands in the
same catch block as a parse failure. -/
def readProfiles : FileState → List DeploymentProfile × Bool
  | .absent => ([], false)
  | .malformed => ([], true)
  | .wellFormed .null => ([], true)
  | .wellFormed j =>
      match j.getField "deployments" with
      | some (.arr xs) => (xs.map decodeProfileJs, false)
      | _ => ([], false)

/-- `writeProfiles` (extension.ts lines 47–55): serializes the full list
as `{ "deployments": [...] }`, replacing the whole file.  The successful
write path is modelled; an I/O failure only surfaces a warning and is not
covered by any claim. -/
def writeProfiles (ps : List DeploymentProfile) : FileState :=
  FileState.wellFormed (Json.obj [("deployments", Json.arr (ps.map encodeProfile))])

theorem decodeProfileJs_encodeProfile (p : DeploymentProfile) :
    decodeProfileJs (encodeProfile p) = p := by
  obtain ⟨name, host, port, username, remotePath, dos, am, pkp, pass⟩ := p
  cases dos <;> cases pkp <;> cases pass <;> rfl

/-! ## Profile construction and removal command handlers -/

/-- Inputs collected by the `addProfile` command prompts (extension.ts
lines 165–222).  `passphrase` is the raw input-box result for the
custom-key flow (`none` when the prompt never ran or was dismissed;
possibly `some ""`). -/
structure AddInputs where
  name : String
  host : String
  port : Int
  username : String
  remotePath : String
  authMethod : String
  privateKeyPath : Option String
  passphrase : Option String
  deployOnSave : Bool
  deriving Repr, DecidableEq

/-- The record pushed by `addProfile` (extension.ts lines 225–234): the
object literal has no `passphrase` key, so the stored record never
carries the passphrase. -/
def addProfileRecord (a : AddInputs) : DeploymentProfile :=
  { name := a.name, host := a.host, port := a.port, username := a.username,
    remotePath := a.remotePath, authMethod := a.authMethod,
    privateKeyPath := a.privateKeyPath, deployOnSave := some a.deployOnSave,
    passphrase := none }

/-- Secret-store effect of `addProfile` (extension.ts lines 240–242):
`if (passphrase) setSecret('sftp-passphrase-' + name, passphrase)`. -/
def addProfileStore (a : AddInputs) (store : SecretStore) : SecretStore :=
  match a.passphrase with
  | some s => if s = "" then store else storeSet store ("sftp-passphrase-" ++ a.name) s
  | none => store

/-- The record written by `editProfile` (extension.ts lines 327–336);
same shape as `addProfileRecord`, no `passphrase` key. -/
def editProfileRecord (a : AddInputs) : DeploymentProfile :=
  { name := a.name, host := a.host, port := a.port, username := a.username,
    remotePath := a.remotePath, authMethod := a.authMethod,
    privateKeyPath := a.privateKeyPath, deployOnSave := some a.deployOnSave,
    passphrase := none }

/-- The record saved by the `manageProfiles` webview (extension.ts lines
703–712): it has neither a `privateKeyPath` nor a `passphrase` key. -/
def webviewSaveRecord (name host : String) (port : Int)
    (username remotePath authMethod : String) (deployOnSave : Bool) :
    DeploymentProfile :=
  { name := name, host := host, port := port, username := username,
    remotePath := remotePath, authMethod := authMethod,
    privateKeyPath := none, deployOnSave := some deployOnSave,
    passphrase := none }

/-- The `removeProfile` command handler (extension.ts lines 355–381):
`profiles.splice(selected.index, 1)`, write the list back, then delete
both secret keys of the removed profile.  A quick-pick selection always
carries an in-range index; the out-of-range case cannot be reached by the
handler and is modelled as a no-op. -/
def removeProfileCmd (ps : List DeploymentProfile) (idx : Nat)
    (store : SecretStore) : List DeploymentProfile × SecretStore :=
  match ps.get? idx with
  | none => (ps, store)
  | some removed =>
      (ps.eraseIdx idx,
       storeDelete (storeDelete store ("sftp-password-" ++ removed.name))
         ("sftp-passphrase-" ++ removed.name))

/-- The `manageProfiles` webview remove handler of the current revision
(extension.ts lines 695–701): identical removal semantics. -/
def webviewRemove (ps : List DeploymentProfile) (idx : Nat)
    (store : SecretStore) : List DeploymentProfile × SecretStore :=
  match ps.get? idx with
  | none => (ps, store)
  | some removed =>
      (ps.eraseIdx idx,
       storeDelete (storeDelete store ("sftp-password-" ++ removed.name))
         ("sftp-passphrase-" ++ removed.name))

/-- The remove paths of the earlier revision (the unnamed source file):
both its `removeProfile` command handler and its webview remove handler
splice the list and rewrite the file but never touch the secret store. -/
def legacyRemove (ps : List DeploymentProfile) (idx : Nat)
    (store : SecretStore) : List DeploymentProfile × SecretStore :=
  (ps.eraseIdx idx, store)

/-! ## Recursive directory upload (`uploadDirectory`, earlier revision
lines 457–489)

The function is callback-based.  It is embedded in continuation-passing
style with callbacks modelled as immediately invoked continuations (every
`fs`/`sftp` operation completes synchronously, in issue order), which
fixes one deterministic schedule of the callback graph.  The emitted
trace records every remote call issued (`fastPut`, `mkdir`) and every
invocation of the caller's completion callback.

The shared mutable cursor `let i = 0; ... files[i++]` of each activation
lives in a heap of counters (`List Nat`), because an activation's cursor
is read and written both from the `mkdir` callback and from the recursive
call's completion callback — the source issues `sftp.mkdir(..., next)`
and `uploadDirectory(...)` for the same entry without sequencing them,
so `next()` runs once from each.

Local `fs.readdir`/`fs.stat` calls are modelled as always succeeding on
the given tree (their error branches are never exercised by the inputs
considered here), and entries are only regular files or directories (the
source skips any other kind). -/

inductive FSEntry where
  | file (name : String)
  | dir (name : String) (children : List FSEntry)

inductive Ev where
  | mkdirEv (remote : String)
  | putEv (localPath remotePath : String) (ok : Bool)
  | cbOk
  | cbErr
  deriving Repr, DecidableEq

def hGet (H : List Nat) (i : Nat) : Nat := (H.get? i).getD 0

def hSet (H : List Nat) (i v : Nat) : List Nat := H.set i v

def hAlloc (H : List Nat) : List Nat × Nat := (H ++ [0], H.length)

/-- One step of the `next()` loop, fuel-indexed.  `id` is the heap cell
holding this activation's cursor; `cb` is this activation's completion
callback, which may fire more than once (faithfully to the source). -/
def nextF : Nat → (String → Bool) → List FSEntry → String → String → Nat →
    (Option Unit → List Nat → List Nat × List Ev) → List Nat →
    List Nat × List Ev
  | 0, _, _, _, _, _, _, H => (H, [])
  | f + 1, upOk, files, localDir, remoteDir, id, cb, H =>
      let i := hGet H id
      match files.get? i with
      | none => cb none H
      | some entry =>
          let H1 := hSet H id (i + 1)
          match entry with
          | .file nm =>
              let lp := localDir ++ "/" ++ nm
              let rp := remoteDir ++ nm
              if upOk lp then
                let r := nextF f upOk files localDir remoteDir id cb H1
                (r.1, Ev.putEv lp rp true :: r.2)
              else
                let r := cb (some ()) H1
                (r.1, Ev.putEv lp rp false :: r.2)
          | .dir nm children =>
              let lp := localDir ++ "/" ++ nm
              let rp := remoteDir ++ nm
              let r1 := nextF f upOk files localDir remoteDir id cb H1
              let a := hAlloc r1.1
              let childCb : Option Unit → List Nat → List Nat × List Ev :=
                fun err Hx =>
                  match err with
                  | some e => cb (some e) Hx
                  | none => nextF f upOk files localDir remoteDir id cb Hx
              let r2 := nextF f upOk children lp (rp ++ "/") a.2 childCb a.1
              (r2.1, Ev.mkdirEv rp :: (r1.2 ++ r2.2))

/-- Entry point mirroring a call `uploadDirectory(sftp, localDir,
remoteDir, cb)` on a tree whose root directory lists `root`, with the
outer caller's callback recording its own invocations in the trace. -/
def runUpload (fuel : Nat) (upOk : String → Bool) (root : List FSEntry)
    (localDir remoteDir : String) : List Ev :=
  let a := hAlloc []
  let topCb : Option Unit → List Nat → List Nat × List Ev :=
    fun err H =>
      match err with
      | some _ => (H, [Ev.cbErr])
      | none => (H, [Ev.cbOk])
  (nextF fuel upOk root localDir remoteDir a.2 topCb a.1).2

/-! ## Concrete fixtures used by the claim theorems -/

def prodProfile : DeploymentProfile :=
  { name := "prod", host := "h", port := 22, username := "u",
    remotePath := "/var/www", authMethod := "password",
    deployOnSave := none, privateKeyPath := none, passphrase := none }

def c1Inputs : AddInputs :=
  { name := "p", host := "h", port := 22, username := "u", remotePath := "/",
    authMethod := "ssh-key", privateKeyPath := some "/k",
    passphrase := some "pp", deployOnSave := false }

def c1Fs : String → Option String :=
  fun pth => if pth = "/k" then some "KEY" else none

def keyAgentProfile : DeploymentProfile :=
  { name := "p", host := "h", port := 22, username := "u", remotePath := "/",
    authMethod := "ssh-key", deployOnSave := none,
    privateKeyPath := none, passphrase := none }

/-- Claim C1 (code-bug evidence).  `addProfile` with a custom key and
passphrase `"pp"` stores the secret under `sftp-passphrase-p`, and the
profile record it writes persists and reloads unchanged; yet resolving
that very record never fetches the stored secret, because the fetch is
gated on the in-memory `profile.passphrase` field, which the object
literal in `addProfile` omits and the persisted JSON therefore never
contains.  The resolved config carries the key material but
`passphrase = none`, although the secret store holds the passphrase. -/
theorem c1_stored_passphrase_never_fetched :
    storeGet (addProfileStore c1Inputs []) "sftp-passphrase-p" = some "pp"
    ∧ (readProfiles (writeProfiles [addProfileRecord c1Inputs])).1
        = [addProfileRecord c1Inputs]
    ∧ getSSHConfig none (addProfileStore c1Inputs []) c1Fs (addProfileRecord c1Inputs)
        = Except.ok { host := "h", port := 22, username := "u",
                      privateKey := some "KEY", passphrase := none,
                      password := none, agent := none } :=
  ⟨rfl, rfl, rfl⟩

/-- Claim C2 (code-bug evidence).  Uploading local directory `a` listing
`[directory b (empty), file x, file y]` to `/r/` where the upload of
`a/x` fails: the trace shows that after the failing `fastPut` of `a/x`
and the error propagation to the caller, the walk still issues the
`fastPut` of the sibling `a/y` and then reports success — because the
source schedules `next()` both from the `mkdir` callback and from the
recursive call's completion callback.  This refutes fail-fast ("no
further upload calls for the remaining siblings after the first failing
upload") on the code. -/
theorem c2_upload_continues_after_failure :
    runUpload 100 (fun lp => lp != "a/x")
      [FSEntry.dir "b" [], FSEntry.file "x", FSEntry.file "y"] "a" "/r/"
    = [Ev.mkdirEv "/r/b", Ev.putEv "a/x" "/r/x" false, Ev.cbErr,
       Ev.putEv "a/y" "/r/y" true, Ev.cbOk] := by
  rfl

/-- Claim C3: an `ssh-key` profile without a `privateKeyPath` resolves to
a config whose `agent` field is the ambient `SSH_AUTH_SOCK` value and
which carries no password, key material or passphrase. -/
theorem c3_agent_config (env : Option String) (store : SecretStore)
    (fs : String → Option String) (p : DeploymentProfile)
    (h1 : p.authMethod = "ssh-key") (h2 : p.privateKeyPath = none) :
    getSSHConfig env store fs p
      = Except.ok { host := p.host, port := p.port, username := p.username,
                    privateKey := none, passphrase := none, password := none,
                    agent := env } := by
  simp [getSSHConfig, h1, h2, truthyOpt]

/-- Witness for C3 at a concrete profile and environment. -/
theorem c3_agent_config_witness :
    getSSHConfig (some "/sock") [] (fun _ => none) keyAgentProfile
      = Except.ok { host := "h", port := 22, username := "u",
                    privateKey := none, passphrase := none, password := none,
                    agent := some "/sock" } :=
  c3_agent_config (some "/sock") [] (fun _ => none) keyAgentProfile rfl rfl

/-- Claim C4: an `ssh-key` profile whose `privateKeyPath` cannot be read
fails with the key-read error and yields no configuration at all. -/
theorem c4_key_read_failure (env : Option String) (store : SecretStore)
    (fs : String → Option String) (p : DeploymentProfile) (kp : String)
    (h1 : p.authMethod = "ssh-key") (h2 : p.privateKeyPath = some kp)
    (h3 : kp ≠ "") (h4 : fs kp = none) :
    getSSHConfig env store fs p = Except.error "Failed to read private key" := by
  simp [getSSHConfig, h1, h2, truthyOpt, h3, h4]

/-- Witness for C4 at a concrete profile whose key file is missing. -/
theorem c4_key_read_failure_witness :
    getSSHConfig none [] (fun _ => none)
      { keyAgentProfile with privateKeyPath := some "/missing" }
      = Except.error "Failed to read private key" :=
  c4_key_read_failure none [] (fun _ => none)
    { keyAgentProfile with privateKeyPath := some "/missing" } "/missing"
    rfl rfl (by decide) rfl

/-- Claim C5, counterexample.  The claim says a *present* password secret
is always attached.  With the secret store holding the empty string under
`sftp-password-prod` — a value the `SecretStorage` collaborator can hold —
the secret is present, yet `if (password)` is falsy on `""` and the
resolved config carries no password. -/
theorem c5_empty_secret_counterexample :
    storeGet [("sftp-password-prod", "")] "sftp-password-prod" = some ""
    ∧ getSSHConfig none [("sftp-password-prod", "")] (fun _ => none) prodProfile
        = Except.ok { host := "h", port := 22, username := "u",
                      privateKey := none, passphrase := none, password := none,
                      agent := none } :=
  ⟨rfl, rfl⟩

/-- Claim C5 as amended: for a password profile, a present *non-empty*
secret is attached as the password with no key, passphrase or agent
field; an absent secret, or a present empty secret, resolves without
error to a config carrying no password. -/
theorem c5_password_resolution (env : Option String) (store : SecretStore)
    (fs : String → Option String) (p : DeploymentProfile)
    (h : p.authMethod = "password") :
    (∀ s, storeGet store ("sftp-password-" ++ p.name) = some s → s ≠ "" →
      getSSHConfig env store fs p
        = Except.ok { host := p.host, port := p.port, username := p.username,
                      privateKey := none, passphrase := none,
                      password := some s, agent := none })
    ∧ (storeGet store ("sftp-password-" ++ p.name) = none →
      getSSHConfig env store fs p
        = Except.ok { host := p.host, port := p.port, username := p.username,
                      privateKey := none, passphrase := none, password := none,
                      agent := none })
    ∧ (storeGet store ("sftp-password-" ++ p.name) = some "" →
      getSSHConfig env store fs p
        = Except.ok { host := p.host, port := p.port, username := p.username,
                      privateKey := none, passphrase := none, password := none,
                      agent := none }) := by
  refine ⟨fun s hs hne => ?_, fun hs => ?_, fun hs => ?_⟩
  · simp [getSSHConfig, h, hs, hne]
  · simp [getSSHConfig, h, hs]
  · simp [getSSHConfig, h, hs]

/-- Witness for C5: the spec's scenario.  Profile `prod` with stored
secret `sftp-password-prod = "s3cr3t"` resolves to the expected config
with only the password set. -/
theorem c5_password_resolution_witness :
    getSSHConfig none [("sftp-password-prod", "s3cr3t")] (fun _ => none) prodProfile
      = Except.ok { host := "h", port := 22, username := "u",
                    privateKey := none, passphrase := none,
                    password := some "s3cr3t", agent := none } :=
  (c5_password_resolution none [("sftp-password-prod", "s3cr3t")] (fun _ => none)
    prodProfile rfl).1 "s3cr3t" rfl (by decide)

/-- Claim C6, counterexample.  A parsed file without a `deployments`
field, and one whose `deployments` field is not an array, both return the
empty list with *no* warning (the warning flag is `false`), refuting the
claim that the malformed cases signal a non-fatal warning. -/
theorem c6_no_warning_counterexample :
    readProfiles (FileState.wellFormed (Json.obj [])) = ([], false)
    ∧ readProfiles (FileState.wellFormed (Json.obj [("deployments", Json.num 3)]))
        = ([], false) :=
  ⟨rfl, rfl⟩

/-- Claim C6 as amended: `load` never throws; an absent file yields the
empty list without a warning; unparseable content yields the empty list
with a warning (as does a parsed top-level `null`, whose property access
throws into the same catch block); any other parsed content whose
`deployments` field is missing or not an array yields the empty list
*without* a warning. -/
theorem c6_load_total (j : Json) :
    readProfiles FileState.absent = ([], false)
    ∧ readProfiles FileState.malformed = ([], true)
    ∧ readProfiles (FileState.wellFormed Json.null) = ([], true)
    ∧ ((∀ xs, j.getField "deployments" ≠ some (Json.arr xs)) → j ≠ Json.null →
        readProfiles (FileState.wellFormed j) = ([], false)) := by
  refine ⟨rfl, rfl, rfl, fun hne hnull => ?_⟩
  cases j with
  | null => exact absurd rfl hnull
  | bool b => rfl
  | num n => rfl
  | str s => rfl
  | arr xs => rfl
  | obj fs =>
      show (match Json.getField (Json.obj fs) "deployments" with
            | some (Json.arr xs) => (xs.map decodeProfileJs, false)
            | _ => (([] : List DeploymentProfile), false)) = ([], false)
      rcases hval : Json.getField (Json.obj fs) "deployments" with _ | val
      · rfl
      · cases val with
        | arr xs => exact absurd hval (hne xs)
        | null => rfl
        | bool b => rfl
        | num n => rfl
        | str s => rfl
        | obj gs => rfl

/-- Witness for C6 at a concrete parsed object lacking `deployments`. -/
theorem c6_load_total_witness :
    readProfiles FileState.absent = ([], false)
    ∧ readProfiles FileState.malformed = ([], true)
    ∧ readProfiles (FileState.wellFormed Json.null) = ([], true)
    ∧ readProfiles (FileState.wellFormed (Json.obj [("other", Json.num 1)]))
        = ([], false) := by
  obtain ⟨h1, h2, h3, h4⟩ := c6_load_total (Json.obj [("other", Json.num 1)])
  exact ⟨h1, h2, h3, h4 (fun xs => by simp [Json.getField, lookupField]) (by intro h; cases h)⟩

/-- Claim C7: `save` followed by `load` returns the saved list (with no
warning).  The model proves full record equality, which subsumes the
claim's equality-up-to-secret-fields. -/
theorem c7_save_load_roundtrip (ps : List DeploymentProfile) :
    readProfiles (writeProfiles ps) = (ps, false) := by
  show (((ps.map encodeProfile).map decodeProfileJs : List DeploymentProfile), false)
      = (ps, false)
  simp [List.map_map, Function.comp_def, decodeProfileJs_encodeProfile]

/-- Claim C8, counterexample.  The remove handlers of the earlier
revision (both the command and the webview ones) splice the list and
rewrite the file but never touch the secret store: removing the only
profile `p` leaves its `sftp-password-p` secret in place, refuting
"every removal path deletes both secret keys". -/
theorem c8_legacy_remove_counterexample :
    (legacyRemove [keyAgentProfile] 0 [("sftp-password-p", "s")]).1 = []
    ∧ storeGet (legacyRemove [keyAgentProfile] 0 [("sftp-password-p", "s")]).2
        "sftp-password-p" = some "s" :=
  ⟨rfl, rfl⟩

/-- Claim C8 as amended: the current revision's `removeProfile` command
and webview remove handler delete both secret keys of the removed
profile, with delete-if-exists semantics (deletion is total, so a
never-set key raises nothing and both lookups come back empty); the
remove paths of the earlier revision delete neither key. -/
theorem c8_remove_deletes_secrets (ps : List DeploymentProfile) (idx : Nat)
    (store : SecretStore) (p : DeploymentProfile) (h : ps.get? idx = some p) :
    (storeGet (removeProfileCmd ps idx store).2 ("sftp-password-" ++ p.name) = none
      ∧ storeGet (removeProfileCmd ps idx store).2 ("sftp-passphrase-" ++ p.name) = none)
    ∧ (storeGet (webviewRemove ps idx store).2 ("sftp-password-" ++ p.name) = none
      ∧ storeGet (webviewRemove ps idx store).2 ("sftp-passphrase-" ++ p.name) = none)
    ∧ (∀ ps2 idx2 store2, (legacyRemove ps2 idx2 store2).2 = store2) := by
  simp only [removeProfileCmd, webviewRemove, h]
  exact ⟨⟨storeGet_storeDelete_none _ _ _ (storeGet_storeDelete_self _ _),
          storeGet_storeDelete_self _ _⟩,
         ⟨storeGet_storeDelete_none _ _ _ (storeGet_storeDelete_self _ _),
          storeGet_storeDelete_self _ _⟩,
         fun _ _ _ => rfl⟩

/-- Witness for C8: removing the only profile from a store that never
held either of its secret keys leaves both lookups empty and raises
nothing. -/
theorem c8_remove_deletes_secrets_witness :
    (storeGet (removeProfileCmd [keyAgentProfile] 0 []).2 "sftp-password-p" = none
      ∧ storeGet (removeProfileCmd [keyAgentProfile] 0 []).2 "sftp-passphrase-p" = none)
    ∧ (storeGet (webviewRemove [keyAgentProfile] 0 []).2 "sftp-password-p" = none
      ∧ storeGet (webviewRemove [keyAgentProfile] 0 []).2 "sftp-passphrase-p" = none)
    ∧ (∀ ps2 idx2 store2, (legacyRemove ps2 idx2 store2).2 = store2) :=
  c8_remove_deletes_secrets [keyAgentProfile] 0 [] keyAgentProfile rfl

/-- Number of credential fields set on a resolved configuration. -/
def credCount (c : SSHConfig) : Nat :=
  (if c.agent.isSome then 1 else 0) + (if c.privateKey.isSome then 1 else 0)
    + (if c.password.isSome then 1 else 0)

/-- Claim C9: every successfully resolved config carries the profile's
host, port and username verbatim and at most one of agent, private key
and password; a passphrase only ever accompanies key material; and for a
non-`ssh-key` profile with no stored password secret, resolution still
succeeds, yielding a config with no credential at all. -/
theorem c9_exactly_one_credential (env : Option String) (store : SecretStore)
    (fs : String → Option String) (p : DeploymentProfile) :
    (∀ c, getSSHConfig env store fs p = Except.ok c →
      c.host = p.host ∧ c.port = p.port ∧ c.username = p.username
        ∧ credCount c ≤ 1 ∧ (c.passphrase = none ∨ c.privateKey.isSome = true))
    ∧ (p.authMethod ≠ "ssh-key" →
        storeGet store ("sftp-password-" ++ p.name) = none →
        getSSHConfig env store fs p
          = Except.ok { host := p.host, port := p.port, username := p.username,
                        privateKey := none, passphrase := none, password := none,
                        agent := none }) := by
  constructor
  · intro c hc
    simp only [getSSHConfig] at hc
    split at hc
    · split at hc
      · split at hc
        · exact absurd hc (by simp)
        · split at hc
          · injection hc with h
            subst h
            simp [credCount]
          · injection hc with h
            subst h
            simp [credCount]
      · injection hc with h
        subst h
        cases env <;> simp [credCount]
    · split at hc
      · split at hc
        · injection hc with h
          subst h
          simp [credCount]
        · injection hc with h
          subst h
          simp [credCount]
      · injection hc with h
        subst h
        simp [credCount]
  · intro ha hs
    simp [getSSHConfig, ha, hs]

/-- Witness for C9 at the concrete password profile with an empty secret
store: resolution succeeds with no credential set, and the resolved
config satisfies all the invariants. -/
theorem c9_exactly_one_credential_witness :
    ((SSHConfig.mk "h" 22 "u" none none none none).host = prodProfile.host
      ∧ (SSHConfig.mk "h" 22 "u" none none none none).port = prodProfile.port
      ∧ (SSHConfig.mk "h" 22 "u" none none none none).username = prodProfile.username
      ∧ credCount (SSHConfig.mk "h" 22 "u" none none none none) ≤ 1
      ∧ ((SSHConfig.mk "h" 22 "u" none none none none).passphrase = none
          ∨ (SSHConfig.mk "h" 22 "u" none none none none).privateKey.isSome = true))
    ∧ getSSHConfig none [] (fun _ => none) prodProfile
        = Except.ok (SSHConfig.mk "h" 22 "u" none none none none) :=
  ⟨(c9_exactly_one_credential none [] (fun _ => none) prodProfile).1
      (SSHConfig.mk "h" 22 "u" none none none none) rfl,
   (c9_exactly_one_credential none [] (fun _ => none) prodProfile).2
      (by decide) rfl⟩

/-! ## Helpers observing the persisted JSON -/

def jsonHasKey (j : Json) (k : String) : Bool :=
  match j with
  | .obj fs => (lookupField fs k).isSome
  | _ => false

/-- The `passphrase` field of the first serialized deployment record, if
any: a projection separating the two sides of the C10 counterexample. -/
def filePassphrase0 : FileState → Option String
  | .wellFormed j =>
      match j.getField "deployments" with
      | some (.arr (x :: _)) => asStr (x.getField "passphrase")
      | _ => none
  | _ => none

/-- Whether any serialized deployment record in the file carries a
`passphrase` key. -/
def fileMentionsPassphrase : FileState → Bool
  | .wellFormed j =>
      match j.getField "deployments" with
      | some (.arr xs) => xs.any (fun x => jsonHasKey x "passphrase")
      | _ => false
  | _ => false

theorem encodeProfile_no_passphrase_key (p : DeploymentProfile)
    (h : p.passphrase = none) : jsonHasKey (encodeProfile p) "passphrase" = false := by
  obtain ⟨name, host, port, username, remotePath, dos, am, pkp, pass⟩ := p
  subst h
  cases dos <;> cases pkp <;> rfl

/-- Claim C10, counterexample.  `writeProfiles` serializes the records
verbatim: two singleton lists that differ only in the optional
`passphrase` field of their record produce different file contents, so
the persisted file is not independent of that field. -/
theorem c10_passphrase_serialized_counterexample :
    writeProfiles [{ keyAgentProfile with passphrase := some "a" }]
      ≠ writeProfiles [keyAgentProfile] := by
  intro h
  exact absurd (congrArg filePassphrase0 h) (by decide)

/-- Claim C10 as amended: `save` serializes records verbatim, including a
`passphrase` field when one is present; however, every profile record
constructed by the extension's own flows (`addProfile`, `editProfile`,
the webview save handler) carries no passphrase, and for any list of such
records the persisted file contains no `passphrase` key at all. -/
theorem c10_constructed_profiles_secret_free :
    (∀ a, (addProfileRecord a).passphrase = none)
    ∧ (∀ a, (editProfileRecord a).passphrase = none)
    ∧ (∀ n h po u r am d, (webviewSaveRecord n h po u r am d).passphrase = none)
    ∧ (∀ ps : List DeploymentProfile, (∀ p ∈ ps, p.passphrase = none) →
        fileMentionsPassphrase (writeProfiles ps) = false) := by
  refine ⟨fun a => rfl, fun a => rfl, fun n h po u r am d => rfl, fun ps hps => ?_⟩
  show ((ps.map encodeProfile).any fun x => jsonHasKey x "passphrase") = false
  simp only [List.any_eq_false, List.mem_map, forall_exists_index, and_imp]
  intro x p hp hx
  subst hx
  simp [encodeProfile_no_passphrase_key p (hps p hp)]

/-- Witness for C10: the file written for a concrete constructor-built
profile list mentions no passphrase key. -/
theorem c10_constructed_profiles_secret_free_witness :
    fileMentionsPassphrase (writeProfiles [keyAgentProfile]) = false :=
  c10_constructed_profiles_secret_free.2.2.2 [keyAgentProfile]
    (by intro p hp; simp only [List.mem_singleton] at hp; subst hp; rfl)
